import Mathlib

/-
Verification development for the openstf hyperparameter-tuning objective
(`openstf/model/objective.py`) and the feature pipeline entry point
(`openstf/feature_engineering/apply_features.py`).

The two Python source files are shallowly embedded below.  Python's dynamic
values are modelled by `PyVal` (floats are modelled as rationals; only type
dispatch and bound passing matter here, no rounding is involved).  External
collaborators that live outside the two source files (optuna's trial
primitives, the data splitter, the regressor backend, the metric module and
the lag/holiday/weather feature helpers) are modelled as abstract oracles
passed in as parameters, so every theorem is quantified over their behavior.
-/

set_option autoImplicit false

namespace Openstf

/-- A Python runtime value as far as `objective.py` inspects one: an `int`,
a `float`, a `str` or a `bool`.  Floats are modelled as rationals. -/
inductive PyVal where
  | int (n : Int)
  | float (q : Rat)
  | str (s : String)
  | bool (b : Bool)
  deriving DecidableEq

/-- `isinstance(v, float)` for the modelled values. -/
def isFloat : PyVal → Bool
  | .float _ => true
  | _ => false

/-- `isinstance(v, int)` for the modelled values.  In Python `bool` is a
subclass of `int`, so `isinstance(True, int)` is `True`. -/
def isInt : PyVal → Bool
  | .int _ => true
  | .bool _ => true
  | _ => false

/-- A value is numeric when it is an `int` (including `bool`) or a `float`. -/
def isNumeric (v : PyVal) : Bool := isInt v || isFloat v

/-- The integer denoted by a value on which `isInt` holds. -/
def asInt : PyVal → Int
  | .int n => n
  | .bool b => if b then 1 else 0
  | _ => 0

/-- The Python exceptions that the embedded code can raise. -/
inductive PyError where
  | typeError (msg : String)
  | valueError (msg : String)
  | runtimeError (msg : String)
  | indexError (msg : String)
  deriving DecidableEq

/-- Digits to a natural number, most significant first. -/
def digitsToNat (l : List Char) : Nat :=
  l.foldl (fun acc c => acc * 10 + (c.toNat - 48)) 0

/-- Parse an unsigned decimal literal (digits with at most one point). -/
def parseUnsigned (l : List Char) : Option Rat :=
  let intPart := l.takeWhile Char.isDigit
  let rest := l.dropWhile Char.isDigit
  match rest with
  | [] => if intPart.isEmpty then none else some (digitsToNat intPart : Rat)
  | c :: frac =>
    if c == '.' && frac.all Char.isDigit && !(intPart.isEmpty && frac.isEmpty) then
      some ((digitsToNat intPart : Rat) + (digitsToNat frac : Rat) / ((10 : Rat) ^ frac.length))
    else
      none

/-- Fragment of Python's `float(str)` conversion: an optional sign followed
by a plain decimal literal.  Scientific notation, `inf`/`nan`, surrounding
whitespace and underscore separators are outside the modelled fragment;
the fragment is exact on plain decimal literals and on strings such as
"abc" that Python also rejects. -/
def floatOfStr (s : String) : Option Rat :=
  match s.toList with
  | [] => none
  | c :: rest =>
    if c == '-' then (parseUnsigned rest).map (fun q => -q)
    else if c == '+' then parseUnsigned rest
    else parseUnsigned (c :: rest)

/-- Python's `float(v)` builtin on the modelled values: exact on `int`,
`float` and `bool`; on strings it parses a decimal literal and raises
`ValueError` otherwise. -/
def pyfloat : PyVal → Except PyError Rat
  | .int n => .ok (n : Rat)
  | .float q => .ok q
  | .bool b => .ok (if b then 1 else 0)
  | .str s =>
    match floatOfStr s with
    | some q => .ok q
    | none => .error (.valueError ("could not convert string to float: " ++ s))

/-- A pandas timestamp as far as the calendar feature lambdas inspect one:
`weekday` (0 = Monday .. 6 = Sunday), `month` and `quarter`. -/
structure Timestamp where
  weekday : Nat
  month : Nat
  quarter : Nat
  deriving DecidableEq

/-- A pandas DataFrame: named columns over a datetime index, rectangular
rows of values. -/
structure DataFrame where
  columns : List String
  index : List Timestamp
  rows : List (List PyVal)
  deriving DecidableEq

/-- A pandas Series: an index together with the values. -/
structure PdSeries where
  index : List Timestamp
  values : List PyVal
  deriving DecidableEq

/-- `df.iloc[:, 1:-1]`: all columns except the first and the last. -/
def ilocMid (df : DataFrame) : DataFrame :=
  { columns := (df.columns.drop 1).dropLast
    index := df.index
    rows := df.rows.map (fun r => (r.drop 1).dropLast) }

/-- `df.iloc[:, 0]`: the values of the first column (value level; the
program-level extraction, which raises like pandas does on a frame with no
columns, is `iloc0Checked`). -/
def iloc0 (df : DataFrame) : List PyVal :=
  df.rows.map (fun r => r.headD (PyVal.float 0))

/-- `df.iloc[:, 0]` as executed by the program: pandas raises `IndexError`
when a single positional column indexer is applied to a frame with no
columns; otherwise it yields the first column. -/
def iloc0Checked (df : DataFrame) : Except PyError (List PyVal) :=
  match df.columns with
  | [] => .error (.indexError "single positional indexer is out-of-bounds")
  | _ :: _ => .ok (iloc0 df)

/-- `df.iloc[:, [0]]` viewed as the single column series handed to a
feature function by `.apply`. -/
def DataFrame.firstColSeries (df : DataFrame) : PdSeries :=
  { index := df.index, values := iloc0 df }

/-- `df[key] = col`: pandas column assignment.  An existing column is
overwritten in place, a new column is appended on the right. -/
def DataFrame.setCol (df : DataFrame) (key : String) (col : List PyVal) : DataFrame :=
  if key ∈ df.columns then
    { df with rows := df.rows.mapIdx (fun i r => r.set (df.columns.indexOf key) (col.getD i (PyVal.float 0))) }
  else
    { columns := df.columns ++ [key]
      index := df.index
      rows := df.rows.mapIdx (fun i r => r ++ [col.getD i (PyVal.float 0)]) }

/-- The optuna trial handed to the objective, reduced to the sampling
primitives `objective.py` invokes on it.  The returned samples are
oracle-chosen; only which primitive is called, with which bounds and
flags, is decided by the embedded code. -/
structure Trial where
  suggest_float : String → Rat → Rat → Bool → Rat
  suggest_int : String → Int → Int → Int
  suggest_categorical : String → List PyVal → PyVal

/-- A raw declaration in the `model_params` dictionary: either the tuple
shape `((startValue, endValue), log)`, a list of categorical choices, or
any other Python value (`other`). -/
inductive Decl where
  | tuple (value : (PyVal × PyVal) × Bool)
  | list (choices : List PyVal)
  | other
  deriving DecidableEq

/-- Embedding of `RegressorObjective.process_tuple` (objective.py lines
36-51): dispatch on the runtime types of the two bounds, calling
`trial.suggest_float` (with the log flag) when either bound is a float,
`trial.suggest_int` (no log flag) when both are ints, and raising
`TypeError` otherwise. -/
def process_tuple (trial : Trial) (key : String) (value : (PyVal × PyVal) × Bool) :
    Except PyError PyVal :=
  let tup := value.1
  let log := value.2
  let startValue := tup.1
  let endValue := tup.2
  let error := "input values for the tuple can be float/float, float/int, int/float, int/int"
  if isFloat startValue || isFloat endValue then
    match pyfloat startValue with
    | .error err => .error err
    | .ok lo =>
      match pyfloat endValue with
      | .error err => .error err
      | .ok hi => .ok (PyVal.float (trial.suggest_float key lo hi log))
  else if isInt startValue && isInt endValue then
    .ok (PyVal.int (trial.suggest_int key (asInt startValue) (asInt endValue)))
  else
    .error (.typeError error)

/-- Embedding of `RegressorObjective.get_trial_parameters` (objective.py
lines 53-80): one pass over the declarations, building the `param`
mapping; a tuple goes through `process_tuple`, a list through
`suggest_categorical`, anything else raises `TypeError`.  The Python dict
is modelled as an association list in insertion order. -/
def get_trial_parameters (model_params : List (String × Decl)) (trial : Trial) :
    Except PyError (List (String × PyVal)) :=
  match model_params with
  | [] => .ok []
  | (key, value) :: rest =>
    let sampled : Except PyError PyVal :=
      match value with
      | .tuple v => process_tuple trial key v
      | .list choices => .ok (trial.suggest_categorical key choices)
      | .other => .error (.typeError "Possible input values: tuple, list")
    match sampled with
    | .error e => .error e
    | .ok v =>
      match get_trial_parameters rest trial with
      | .error e => .error e
      | .ok ps => .ok ((key, v) :: ps)

/-- The state a `RegressorObjective` holds across trials (objective.py
lines 82-106); the regressor, pruning factory and extra eval arguments are
external and appear in `Externals` instead.  Times are integer seconds
(the sub-second granularity of `datetime` plays no role in the claims). -/
structure RegressorObjective where
  input_data : DataFrame
  model_params : List (String × Decl)
  start_time : Int
  test_fraction : Rat
  validation_fraction : Rat
  eval_metric : String
  verbose : Bool

/-- External collaborators of `RegressorObjective.__call__` that are not
part of the source file: the data splitter, the fitted regressor's
`predict`, and the `openstf.metrics.metrics` attribute lookup performed by
`eval` (`none` models the `AttributeError` case). -/
structure Externals where
  split_data_train_validation_test :
    DataFrame → Rat → Rat → Bool → DataFrame × DataFrame × DataFrame
  predict : DataFrame → List PyVal
  metrics : String → Option (List PyVal → List PyVal → Rat)

/-- The observable events of one objective call, in order: the
`trial.study.stop()` signal, the splitter invocation, the `model.fit`
call (with the exact frames and targets passed), the `model.predict` call,
the metric evaluation, and the `print` on a failed metric lookup. -/
inductive Event where
  | studyStop
  | splitCall
  | fitCall (train_x : DataFrame) (train_y : List PyVal) (valid_x : DataFrame) (valid_y : List PyVal)
  | predictCall (test_x : DataFrame)
  | metricCall (y_true : List PyVal) (y_pred : List PyVal)
  | printNotDefined
  deriving DecidableEq

/-- The `(train, validation, test)` folds produced by the splitter call at
objective.py lines 122-127. -/
def foldsOf (self : RegressorObjective) (ext : Externals) :
    DataFrame × DataFrame × DataFrame :=
  ext.split_data_train_validation_test self.input_data self.test_fraction
    self.validation_fraction true

/-- The column-order test at objective.py lines 129-134:
`train_data.columns[0] != "load" or train_data.columns[-1] != "horizon"`;
indexing an empty column list raises `IndexError`, a failed test raises
`RuntimeError`. -/
def columnsOk (cols : List String) : Except PyError Unit :=
  match cols with
  | [] => .error (.indexError "index 0 is out of bounds for axis 0 with size 0")
  | c :: cs =>
    if c != "load" || (c :: cs).getLastD "" != "horizon" then
      .error (.runtimeError "Column order in train input data not as expected, could not train a model!")
    else
      .ok ()

/-- The body of `RegressorObjective.__call__` after the elapsed-time check
(objective.py lines 121-172): split, validate the train fold's columns,
split each fold into features (columns 1..-2, a slice that never raises)
and target (column 0, raising `IndexError` on a zero-column fold) in the
source order train/validation/test, sample the trial parameters, fit,
predict, and resolve the metric; a failed metric lookup is caught,
printed, and the call falls through returning `None` (modelled by
`Except.ok none`).  The first component is the event trace. -/
def callBody (self : RegressorObjective) (ext : Externals) (trial : Trial) :
    List Event × Except PyError (Option Rat) :=
  let folds := foldsOf self ext
  let train_data := folds.1
  let validation_data := folds.2.1
  let test_data := folds.2.2
  match columnsOk train_data.columns with
  | .error e => ([Event.splitCall], .error e)
  | .ok _ =>
    let train_x := ilocMid train_data
    match iloc0Checked train_data with
    | .error e => ([Event.splitCall], .error e)
    | .ok train_y =>
      let valid_x := ilocMid validation_data
      match iloc0Checked validation_data with
      | .error e => ([Event.splitCall], .error e)
      | .ok valid_y =>
        let test_x := ilocMid test_data
        match iloc0Checked test_data with
        | .error e => ([Event.splitCall], .error e)
        | .ok test_y =>
          match get_trial_parameters self.model_params trial with
          | .error e => ([Event.splitCall], .error e)
          | .ok _param =>
            let forecast_y := ext.predict test_x
            match ext.metrics self.eval_metric with
            | some f =>
              ([Event.splitCall, Event.fitCall train_x train_y valid_x valid_y,
                Event.predictCall test_x, Event.metricCall test_y forecast_y],
               .ok (some (f test_y forecast_y)))
            | none =>
              ([Event.splitCall, Event.fitCall train_x train_y valid_x valid_y,
                Event.predictCall test_x, Event.printNotDefined],
               .ok none)

/-- Embedding of `RegressorObjective.__call__` (objective.py lines
108-172).  `now` is the value of `datetime.utcnow()` in seconds; the
budget `timedelta(minutes=2, seconds=0)` is 120 seconds.  When the elapsed
time exceeds the budget the study is told to stop and execution continues
into the body unchanged. -/
def RegressorObjective.call (self : RegressorObjective) (ext : Externals)
    (trial : Trial) (now : Int) : List Event × Except PyError (Option Rat) :=
  let elapsed := now - self.start_time
  if elapsed > 120 then
    (Event.studyStop :: (callBody self ext trial).1, (callBody self ext trial).2)
  else
    callBody self ext trial

/-- A feature function as handed to `data.iloc[:, [0]].apply(...)`: it
receives the first column as a series and produces the new column's
values. -/
def FeatFunc : Type := PdSeries → List PyVal

/-- External collaborators of `apply_features` that are not part of the
source file: the lag feature generator, the holiday feature generator and
the wind/humidity feature steps. -/
structure FeatureExt where
  generate_lag_feature_functions : Option (List String) → Rat → List (String × FeatFunc)
  generate_holiday_feature_functions : List (String × FeatFunc)
  add_additional_wind_features : DataFrame → Option (List String) → DataFrame
  add_humidity_features : DataFrame → Option (List String) → DataFrame

/-- The five time-driven feature lambdas of apply_features.py lines 64-72,
operating on the index of the series they receive. -/
def timeDrivenFeatureFunctions : List (String × FeatFunc) :=
  [("IsWeekendDay", fun x => x.index.map (fun t => PyVal.bool (t.weekday / 5 == 1))),
   ("IsWeekDay", fun x => x.index.map (fun t => PyVal.bool (decide (t.weekday < 5)))),
   ("IsSunday", fun x => x.index.map (fun t => PyVal.bool (t.weekday == 6))),
   ("Month", fun x => x.index.map (fun t => PyVal.int (t.month : Int))),
   ("Quarter", fun x => x.index.map (fun t => PyVal.int (t.quarter : Int)))]

/-- Python `dict` insertion: an existing key keeps its position and gets
the new value, a new key is appended. -/
def dictInsert {α : Type} (d : List (String × α)) (k : String) (v : α) :
    List (String × α) :=
  if d.any (fun p => p.1 == k) then
    d.map (fun p => if p.1 == k then (k, v) else p)
  else
    d ++ [(k, v)]

/-- Python `dict.update`. -/
def dictUpdate {α : Type} (d e : List (String × α)) : List (String × α) :=
  e.foldl (fun acc kv => dictInsert acc kv.1 kv.2) d

/-- The `feature_functions` dictionary assembled at apply_features.py lines
60-75: lag functions, updated with the time-driven functions, updated with
the holiday functions. -/
def featureFunctionsOf (ext : FeatureExt) (features : Option (List String))
    (horizon : Rat) : List (String × FeatFunc) :=
  dictUpdate
    (dictUpdate (ext.generate_lag_feature_functions features horizon)
      timeDrivenFeatureFunctions)
    ext.generate_holiday_feature_functions

/-- The loop at apply_features.py lines 80-83: for each feature function
whose key appears in the requested list, assign
`data[key] = data.iloc[:, [0]].apply(featfunc)` onto the frame. -/
def applyRequestedFeatures (funcs : List (String × FeatFunc))
    (features : List String) (data : DataFrame) : DataFrame :=
  funcs.foldl
    (fun d kf =>
      if kf.1 ∈ features then d.setCol kf.1 (kf.2 d.firstColSeries) else d)
    data

/-- Embedding of `apply_features` (apply_features.py lines 28-92).  The
first component is the state of the caller's `data` object after the call:
the loop at lines 78-83 assigns columns onto the caller's frame in place,
while the wind/humidity steps at lines 86-89 only rebind the local name
(the external steps are modelled as returning fresh frames).  The second
component is the returned frame. -/
def apply_features (ext : FeatureExt) (data : DataFrame)
    (features : Option (List String)) (horizon : Rat) : DataFrame × DataFrame :=
  let feature_functions := featureFunctionsOf ext features horizon
  let dataAfterLoop :=
    match features with
    | some fs => applyRequestedFeatures feature_functions fs data
    | none => data
  let out :=
    ext.add_humidity_features
      (ext.add_additional_wind_features dataAfterLoop features) features
  (dataAfterLoop, out)

/-- A well-formed declaration in the sense of the spec: an ordered pair
with numeric bounds, or a categorical collection. -/
def WFDecl : Decl → Bool
  | .tuple v => isNumeric v.1.1 && isNumeric v.1.2
  | .list _ => true
  | .other => false

/-- `sub` occurs at the head of `l`. -/
def leadsList : List Char → List Char → Bool
  | [], _ => true
  | _ :: _, [] => false
  | a :: as, b :: bs => a == b && leadsList as bs

/-- `sub` occurs somewhere in `l`. -/
def occursIn (sub : List Char) : List Char → Bool
  | [] => sub.isEmpty
  | c :: rest => leadsList sub (c :: rest) || occursIn sub rest

/-- `sub` occurs as a substring of `s`. -/
def strOccurs (sub s : String) : Bool := occursIn sub.toList s.toList

/- Concrete fixtures used by witnesses and counterexamples. -/

/-- A fixed timestamp (a Wednesday in January). -/
def ts0 : Timestamp := { weekday := 2, month := 1, quarter := 1 }

/-- A well-formed input frame: columns `[load, temp, horizon]`. -/
def df0 : DataFrame :=
  { columns := ["load", "temp", "horizon"]
    index := [ts0, ts0]
    rows := [[PyVal.float 1, PyVal.float 2, PyVal.float 3],
             [PyVal.float 4, PyVal.float 5, PyVal.float 6]] }

/-- A frame violating the column contract. -/
def dfBad : DataFrame :=
  { columns := ["x"], index := [ts0], rows := [[PyVal.float 0]] }

/-- A single-column frame used for the feature pipeline fixtures. -/
def df1 : DataFrame :=
  { columns := ["load"], index := [ts0], rows := [[PyVal.float 1]] }

/-- A concrete trial: every primitive returns its lower bound or the first
choice. -/
def trial0 : Trial :=
  { suggest_float := fun _ lo _ _ => lo
    suggest_int := fun _ lo _ => lo
    suggest_categorical := fun _ choices => choices.headD (PyVal.int 0) }

/-- Concrete externals: the splitter hands the input back as all three
folds, `predict` returns zeros, and only `mae` resolves in the metric
module. -/
def ext0 : Externals :=
  { split_data_train_validation_test := fun d _ _ _ => (d, d, d)
    predict := fun _ => [PyVal.float 0, PyVal.float 0]
    metrics := fun name => if name == "mae" then some (fun _ _ => 0) else none }

/-- Externals whose splitter returns a bad validation fold but a good
train fold. -/
def extBadValidation : Externals :=
  { ext0 with split_data_train_validation_test := fun d _ _ _ => (d, dfBad, d) }

/-- Externals whose splitter returns a bad train fold. -/
def extBadTrain : Externals :=
  { ext0 with split_data_train_validation_test := fun d _ _ _ => (dfBad, d, d) }

/-- A frame with no columns at all. -/
def dfNoCols : DataFrame := { columns := [], index := [ts0], rows := [[]] }

/-- Externals whose splitter returns a zero-column validation fold next to
a good train fold. -/
def extEmptyValidation : Externals :=
  { ext0 with split_data_train_validation_test := fun d _ _ _ => (d, dfNoCols, d) }

/-- A concrete objective over `df0` with an empty search space. -/
def self0 : RegressorObjective :=
  { input_data := df0
    model_params := []
    start_time := 0
    test_fraction := 1 / 10
    validation_fraction := 1 / 10
    eval_metric := "mae"
    verbose := false }

/-- The same objective with an eval metric that does not resolve in
`openstf.metrics.metrics`. -/
def selfNoMetric : RegressorObjective :=
  { self0 with eval_metric := "nonexistent_metric" }

/-- Concrete feature externals: one lag feature, one holiday feature, and
wind/humidity steps that return their input unchanged. -/
def featExt0 : FeatureExt :=
  { generate_lag_feature_functions := fun _ _ => [("T-1d", fun x => x.values)]
    generate_holiday_feature_functions := [("IsHoliday", fun x => x.index.map (fun _ => PyVal.bool false))]
    add_additional_wind_features := fun d _ => d
    add_humidity_features := fun d _ => d }

/- Shared helper lemmas. -/

/-- The result of an objective call never depends on the clock: the budget
check only prepends the stop signal to the trace. -/
theorem call_snd (self : RegressorObjective) (ext : Externals) (trial : Trial)
    (now : Int) :
    (RegressorObjective.call self ext trial now).2 = (callBody self ext trial).2 := by
  simp only [RegressorObjective.call]
  split <;> rfl

/-- Membership of any event other than the stop signal transfers between a
call's trace and its body's trace. -/
theorem call_mem (self : RegressorObjective) (ext : Externals) (trial : Trial)
    (now : Int) (ev : Event) (hne : ev ≠ Event.studyStop) :
    ev ∈ (RegressorObjective.call self ext trial now).1 ↔
      ev ∈ (callBody self ext trial).1 := by
  simp only [RegressorObjective.call]
  split
  · simp [List.mem_cons, hne]
  · rfl

/-- A successful program-level target extraction yields the first
column. -/
theorem iloc0Checked_ok (df : DataFrame) (y : List PyVal)
    (h : iloc0Checked df = .ok y) : y = iloc0 df := by
  unfold iloc0Checked at h
  split at h
  · simp at h
  · injection h with h
    exact h.symm

/-- On a frame with at least one column the target extraction succeeds. -/
theorem iloc0Checked_nonempty (df : DataFrame) (h : df.columns ≠ []) :
    iloc0Checked df = .ok (iloc0 df) := by
  rcases hc : df.columns with _ | ⟨c, cs⟩
  · exact absurd hc h
  · simp [iloc0Checked, hc]

/-- A column list passing the column-order test is nonempty. -/
theorem columnsOk_ok_nonempty (cols : List String)
    (h : columnsOk cols = .ok ()) : cols ≠ [] := by
  intro hc
  subst hc
  simp [columnsOk] at h

/-- The body trace is one of three shapes: stopped before the fit (at the
column check, a fold's target extraction, or the parameter sampling), or a
full run ending in a metric evaluation or in the failed-lookup print. -/
theorem callBody_trace_shape (self : RegressorObjective) (ext : Externals)
    (trial : Trial) :
    (callBody self ext trial).1 = [Event.splitCall] ∨
    (callBody self ext trial).1 =
      [Event.splitCall,
       Event.fitCall (ilocMid (foldsOf self ext).1) (iloc0 (foldsOf self ext).1)
         (ilocMid (foldsOf self ext).2.1) (iloc0 (foldsOf self ext).2.1),
       Event.predictCall (ilocMid (foldsOf self ext).2.2),
       Event.metricCall (iloc0 (foldsOf self ext).2.2)
         (ext.predict (ilocMid (foldsOf self ext).2.2))] ∨
    (callBody self ext trial).1 =
      [Event.splitCall,
       Event.fitCall (ilocMid (foldsOf self ext).1) (iloc0 (foldsOf self ext).1)
         (ilocMid (foldsOf self ext).2.1) (iloc0 (foldsOf self ext).2.1),
       Event.predictCall (ilocMid (foldsOf self ext).2.2),
       Event.printNotDefined] := by
  rcases h1 : columnsOk (foldsOf self ext).1.columns with e1 | u1
  · left
    simp [callBody, h1]
  · rcases h2 : iloc0Checked (foldsOf self ext).1 with e2 | y1
    · left
      simp [callBody, h1, h2]
    · rcases h3 : iloc0Checked (foldsOf self ext).2.1 with e3 | y2
      · left
        simp [callBody, h1, h2, h3]
      · rcases h4 : iloc0Checked (foldsOf self ext).2.2 with e4 | y3
        · left
          simp [callBody, h1, h2, h3, h4]
        · rcases h5 : get_trial_parameters self.model_params trial with e5 | ps
          · left
            simp [callBody, h1, h2, h3, h4, h5]
          · rcases h6 : ext.metrics self.eval_metric with _ | f
            · right; right
              simp [callBody, h1, h2, h3, h4, h5, h6,
                iloc0Checked_ok _ _ h2, iloc0Checked_ok _ _ h3,
                iloc0Checked_ok _ _ h4]
            · right; left
              simp [callBody, h1, h2, h3, h4, h5, h6,
                iloc0Checked_ok _ _ h2, iloc0Checked_ok _ _ h3,
                iloc0Checked_ok _ _ h4]

/-- Every body trace starts with the splitter invocation. -/
theorem callBody_trace_head (self : RegressorObjective) (ext : Externals)
    (trial : Trial) :
    (callBody self ext trial).1.head? = some Event.splitCall := by
  rcases callBody_trace_shape self ext trial with h | h | h <;> rw [h] <;> rfl

/-- A column list whose head is not `load` or whose last entry is not
`horizon` fails the column-order test. -/
theorem columnsOk_bad (cols : List String)
    (h : cols.headD "" ≠ "load" ∨ cols.getLastD "" ≠ "horizon") :
    ∃ e, columnsOk cols = .error e := by
  match cols with
  | [] => exact ⟨_, rfl⟩
  | c :: cs =>
    have hc : (c != "load" || (c :: cs).getLastD "" != "horizon") = true := by
      rcases h with h | h
      · simp only [List.headD_cons] at h
        simp [h]
      · simp only [List.getLastD_eq_getLast?] at h
        simp [h]
    refine ⟨PyError.runtimeError "Column order in train input data not as expected, could not train a model!", ?_⟩
    simp only [columnsOk]
    rw [hc]
    rfl

/-- Overwriting an existing column keeps the column list; a fresh key is
appended. -/
theorem setCol_columns (df : DataFrame) (key : String) (col : List PyVal) :
    (df.setCol key col).columns =
      if key ∈ df.columns then df.columns else df.columns ++ [key] := by
  unfold DataFrame.setCol
  split <;> simp_all

/-- The assigned key is a column of the result. -/
theorem setCol_mem_self (df : DataFrame) (key : String) (col : List PyVal) :
    key ∈ (df.setCol key col).columns := by
  rw [setCol_columns]
  split <;> simp_all

/-- Column assignment never removes a column. -/
theorem setCol_mem_mono (df : DataFrame) (key c : String) (col : List PyVal)
    (h : c ∈ df.columns) : c ∈ (df.setCol key col).columns := by
  rw [setCol_columns]
  split <;> simp_all

/-- Every column of the result of an assignment was a column before or is
the assigned key. -/
theorem setCol_mem_inv (df : DataFrame) (key c : String) (col : List PyVal)
    (h : c ∈ (df.setCol key col).columns) : c ∈ df.columns ∨ c = key := by
  rw [setCol_columns] at h
  rcases Decidable.em (key ∈ df.columns) with hk | hk
  · rw [if_pos hk] at h; exact Or.inl h
  · rw [if_neg hk] at h
    rcases List.mem_append.mp h with h | h
    · exact Or.inl h
    · exact Or.inr (List.mem_singleton.mp h)

/-- The feature loop never removes a column. -/
theorem applyRequested_mem_mono (funcs : List (String × FeatFunc))
    (features : List String) (data : DataFrame) (c : String)
    (h : c ∈ data.columns) :
    c ∈ (applyRequestedFeatures funcs features data).columns := by
  induction funcs generalizing data with
  | nil => exact h
  | cons kf rest ih =>
    unfold applyRequestedFeatures
    simp only [List.foldl_cons]
    apply ih
    split
    · exact setCol_mem_mono _ _ _ _ h
    · exact h

/-- Every column after the feature loop is an input column or a requested
feature name. -/
theorem applyRequested_mem_inv (funcs : List (String × FeatFunc))
    (features : List String) (data : DataFrame) (c : String)
    (h : c ∈ (applyRequestedFeatures funcs features data).columns) :
    c ∈ data.columns ∨ c ∈ features := by
  induction funcs generalizing data with
  | nil => exact Or.inl h
  | cons kf rest ih =>
    unfold applyRequestedFeatures at h
    simp only [List.foldl_cons] at h
    rcases ih _ h with h1 | h1
    · revert h1
      split
      · intro h1
        rcases setCol_mem_inv _ _ _ _ h1 with h2 | h2
        · exact Or.inl h2
        · subst h2
          right
          assumption
      · exact Or.inl
    · exact Or.inr h1

/-- A feature name that appears among the feature functions and in the
requested list is a column after the loop. -/
theorem applyRequested_mem_of_requested (funcs : List (String × FeatFunc))
    (features : List String) (data : DataFrame) (key : String)
    (hk : key ∈ funcs.map Prod.fst) (hf : key ∈ features) :
    key ∈ (applyRequestedFeatures funcs features data).columns := by
  induction funcs generalizing data with
  | nil => simp at hk
  | cons kf rest ih =>
    unfold applyRequestedFeatures
    simp only [List.foldl_cons]
    simp only [List.map_cons, List.mem_cons] at hk
    rcases hk with hk | hk
    · subst hk
      rw [if_pos hf]
      exact applyRequested_mem_mono _ _ _ _ (setCol_mem_self _ _ _)
    · exact ih _ hk

/-- Numeric values convert with Python `float()` without error. -/
theorem pyfloat_numeric (v : PyVal) (h : isNumeric v = true) :
    ∃ q, pyfloat v = .ok q := by
  cases v <;> simp [isNumeric, isInt, isFloat, pyfloat] at h ⊢

/-- A numeric value that is not a float is an int. -/
theorem isInt_of_numeric_not_float (v : PyVal) (h : isNumeric v = true)
    (hf : isFloat v = false) : isInt v = true := by
  cases v <;> simp_all [isNumeric, isInt, isFloat]

/-- A tuple declaration with numeric bounds samples successfully. -/
theorem process_tuple_wf (trial : Trial) (key : String)
    (v : (PyVal × PyVal) × Bool) (h1 : isNumeric v.1.1 = true)
    (h2 : isNumeric v.1.2 = true) :
    ∃ r, process_tuple trial key v = .ok r := by
  unfold process_tuple
  rcases hf : (isFloat v.1.1 || isFloat v.1.2) with _ | _
  · simp only [Bool.or_eq_false_iff] at hf
    rw [if_neg (by simp [hf.1, hf.2])]
    rw [if_pos]
    · exact ⟨_, rfl⟩
    · rw [isInt_of_numeric_not_float _ h1 hf.1,
        isInt_of_numeric_not_float _ h2 hf.2]
      rfl
  · rw [if_pos (by simp [hf])]
    obtain ⟨q1, hq1⟩ := pyfloat_numeric _ h1
    obtain ⟨q2, hq2⟩ := pyfloat_numeric _ h2
    rw [hq1, hq2]
    exact ⟨_, rfl⟩

/- Claim theorems. -/

/-- Claim C1: whenever the elapsed time since `start_time` exceeds the
two-minute budget, the stop signal is the first event of the call — before
the split (the head of the remaining trace) and hence before any fitting —
while the in-flight trial continues unchanged: the rest of the trace and
the outcome are exactly those of `callBody`, which does not depend on the
clock, so budget exhaustion is never surfaced as an exception. -/
theorem time_budget_stop_before_work (self : RegressorObjective)
    (ext : Externals) (trial : Trial) (now : Int)
    (h : now - self.start_time > 120) :
    (RegressorObjective.call self ext trial now).1
        = Event.studyStop :: (callBody self ext trial).1 ∧
    (callBody self ext trial).1.head? = some Event.splitCall ∧
    (RegressorObjective.call self ext trial now).2 = (callBody self ext trial).2 := by
  refine ⟨?_, callBody_trace_head self ext trial, call_snd self ext trial now⟩
  simp only [RegressorObjective.call]
  rw [if_pos h]

/-- Witness for C1: with `start_time = 0` and `now = 200` the budget is
exceeded and the conclusion holds at concrete inputs. -/
theorem time_budget_stop_before_work_witness :
    (RegressorObjective.call self0 ext0 trial0 200).1
        = Event.studyStop :: (callBody self0 ext0 trial0).1 ∧
    (callBody self0 ext0 trial0).1.head? = some Event.splitCall ∧
    (RegressorObjective.call self0 ext0 trial0 200).2 = (callBody self0 ext0 trial0).2 :=
  time_budget_stop_before_work self0 ext0 trial0 200 (by decide)

/-- Counterexample for C2: for the ordered-pair declaration
`((1.0, "abc"), True)` at least one bound is a float, yet the code neither
samples a continuous value nor raises a type error: `float("abc")` raises
`ValueError`.  The match in the second conjunct is exactly the claim's
prediction (a sampled value or a type error) and it evaluates to `false`. -/
theorem process_tuple_float_str_counterexample :
    process_tuple trial0 "k" ((PyVal.float 1, PyVal.str "abc"), true)
        = Except.error (PyError.valueError "could not convert string to float: abc") ∧
    (match process_tuple trial0 "k" ((PyVal.float 1, PyVal.str "abc"), true) with
      | Except.ok _ => true
      | Except.error (PyError.typeError _) => true
      | _ => false) = false := by
  exact ⟨rfl, rfl⟩

/-- Claim C2 as amended: if at least one bound is a float instance, both
bounds go through Python `float()` conversion — when both succeed the
trial's continuous primitive receives the converted bounds and the
log-scale flag, and when a conversion fails (e.g. a non-numeric string)
the resulting value error propagates; if no bound is a float and both are
int instances (bools included), the integer primitive receives the bounds
and the log-scale flag is ignored; any other combination raises a type
error with the fixed message of the source. -/
theorem process_tuple_cases (trial : Trial) (key : String) (s e : PyVal)
    (log : Bool) :
    ((isFloat s || isFloat e) = true →
      (∀ lo hi, pyfloat s = .ok lo → pyfloat e = .ok hi →
        process_tuple trial key ((s, e), log)
          = .ok (PyVal.float (trial.suggest_float key lo hi log))) ∧
      (∀ err, pyfloat s = .error err →
        process_tuple trial key ((s, e), log) = .error err) ∧
      (∀ lo err, pyfloat s = .ok lo → pyfloat e = .error err →
        process_tuple trial key ((s, e), log) = .error err)) ∧
    ((isFloat s || isFloat e) = false → (isInt s && isInt e) = true →
      process_tuple trial key ((s, e), log)
        = .ok (PyVal.int (trial.suggest_int key (asInt s) (asInt e)))) ∧
    ((isFloat s || isFloat e) = false → (isInt s && isInt e) = false →
      process_tuple trial key ((s, e), log)
        = .error (.typeError "input values for the tuple can be float/float, float/int, int/float, int/int")) := by
  refine ⟨fun hf => ⟨?_, ?_, ?_⟩, fun hf hi => ?_, fun hf hi => ?_⟩
  · intro lo hi hs he
    simp [process_tuple, hf, hs, he]
  · intro err hs
    simp [process_tuple, hf, hs]
  · intro lo err hs he
    simp [process_tuple, hf, hs, he]
  · simp [process_tuple, hf, hi]
  · simp [process_tuple, hf, hi]

/-- Witness for C2 (amended): a float/int pair samples continuously with
the log flag passed through. -/
theorem process_tuple_cases_witness :
    process_tuple trial0 "eta" ((PyVal.float (1 / 100), PyVal.int 2), true)
        = Except.ok (PyVal.float (trial0.suggest_float "eta" (1 / 100) ((2 : Int) : Rat) true)) :=
  ((process_tuple_cases trial0 "eta" (PyVal.float (1 / 100)) (PyVal.int 2) true).1
    rfl).1 (1 / 100) ((2 : Int) : Rat) rfl rfl

/-- Claim C3 (defect witnessed): with an eval-metric name that does not
resolve in `openstf.metrics.metrics`, the call catches the lookup failure,
prints, and returns `None` — an undefined trial outcome instead of an
explicit failure (the function is annotated `-> float`). -/
theorem metric_resolution_returns_none :
    (RegressorObjective.call selfNoMetric ext0 trial0 0).2 = Except.ok none ∧
    Event.printNotDefined ∈ (RegressorObjective.call selfNoMetric ext0 trial0 0).1 := by
  refine ⟨rfl, ?_⟩
  decide

/-- Counterexample for C4: the two configuration type errors carry fixed
messages that do not mention the offending declaration key. -/
theorem config_error_message_lacks_key :
    get_trial_parameters [("eta", Decl.tuple ((PyVal.str "a", PyVal.str "b"), false))] trial0
        = Except.error (PyError.typeError "input values for the tuple can be float/float, float/int, int/float, int/int") ∧
    strOccurs "eta" "input values for the tuple can be float/float, float/int, int/float, int/int" = false ∧
    get_trial_parameters [("max_depth", Decl.other)] trial0
        = Except.error (PyError.typeError "Possible input values: tuple, list") ∧
    strOccurs "max_depth" "Possible input values: tuple, list" = false := by
  refine ⟨rfl, by decide, rfl, by decide⟩

/-- Claim C4 as amended: a non-numeric bound pair and a declaration that
is neither a pair nor a list both fail with type errors, but with fixed
descriptive messages that are independent of (and do not name) the
offending declaration key. -/
theorem config_error_fixed_messages (trial : Trial) (key : String)
    (a b : String) (log : Bool) (rest : List (String × Decl)) :
    process_tuple trial key ((PyVal.str a, PyVal.str b), log)
        = Except.error (PyError.typeError "input values for the tuple can be float/float, float/int, int/float, int/int") ∧
    get_trial_parameters ((key, Decl.other) :: rest) trial
        = Except.error (PyError.typeError "Possible input values: tuple, list") :=
  ⟨rfl, rfl⟩

/-- Claim C5: when the train fold's first column is not `load` or its last
column is not `horizon`, the call raises an error and no fit is ever
attempted. -/
theorem column_check_blocks_fit (self : RegressorObjective) (ext : Externals)
    (trial : Trial) (now : Int) (tr va te : DataFrame)
    (hsplit : foldsOf self ext = (tr, va, te))
    (hbad : tr.columns.headD "" ≠ "load" ∨ tr.columns.getLastD "" ≠ "horizon") :
    (∃ e, (RegressorObjective.call self ext trial now).2 = Except.error e) ∧
    ∀ tx ty vx vy,
      Event.fitCall tx ty vx vy ∉ (RegressorObjective.call self ext trial now).1 := by
  obtain ⟨e, he⟩ := columnsOk_bad tr.columns hbad
  have hbody : callBody self ext trial = ([Event.splitCall], .error e) := by
    simp [callBody, hsplit, he]
  constructor
  · exact ⟨e, by rw [call_snd, hbody]⟩
  · intro tx ty vx vy hmem
    rw [call_mem self ext trial now _ (by simp)] at hmem
    rw [hbody] at hmem
    simp at hmem

/-- Witness for C5: a splitter returning a train fold with columns `[x]`
makes the call error out without a fit event. -/
theorem column_check_blocks_fit_witness :
    (∃ e, (RegressorObjective.call self0 extBadTrain trial0 0).2 = Except.error e) ∧
    ∀ tx ty vx vy,
      Event.fitCall tx ty vx vy ∉ (RegressorObjective.call self0 extBadTrain trial0 0).1 :=
  column_check_blocks_fit self0 extBadTrain trial0 0 dfBad df0 df0 rfl
    (Or.inl (by decide))

/-- Claim C6: whatever payload reaches the fit, predict or metric step, it
is exactly the positional split of the corresponding fold: the target is
column 0 and the features are all columns but the first and the last (so
the last — horizon — column never reaches the model). -/
theorem fold_feature_target_split (self : RegressorObjective) (ext : Externals)
    (trial : Trial) (now : Int) :
    (∀ tx ty vx vy,
      Event.fitCall tx ty vx vy ∈ (RegressorObjective.call self ext trial now).1 →
        tx = ilocMid (foldsOf self ext).1 ∧ ty = iloc0 (foldsOf self ext).1 ∧
        vx = ilocMid (foldsOf self ext).2.1 ∧ vy = iloc0 (foldsOf self ext).2.1) ∧
    (∀ px, Event.predictCall px ∈ (RegressorObjective.call self ext trial now).1 →
        px = ilocMid (foldsOf self ext).2.2) ∧
    (∀ yt yp,
      Event.metricCall yt yp ∈ (RegressorObjective.call self ext trial now).1 →
        yt = iloc0 (foldsOf self ext).2.2) := by
  have hs := callBody_trace_shape self ext trial
  refine ⟨?_, ?_, ?_⟩
  · intro tx ty vx vy hmem
    rw [call_mem self ext trial now _ (by simp)] at hmem
    rcases hs with h | h | h <;> rw [h] at hmem <;> simp_all
  · intro px hmem
    rw [call_mem self ext trial now _ (by simp)] at hmem
    rcases hs with h | h | h <;> rw [h] at hmem <;> simp_all
  · intro yt yp hmem
    rw [call_mem self ext trial now _ (by simp)] at hmem
    rcases hs with h | h | h <;> rw [h] at hmem <;> simp_all

/-- Witness for C6: in a concrete full run the fit payload is the
positional split of the train and validation folds. -/
theorem fold_feature_target_split_witness :
    ilocMid df0 = ilocMid (foldsOf self0 ext0).1 ∧
    iloc0 df0 = iloc0 (foldsOf self0 ext0).1 ∧
    ilocMid df0 = ilocMid (foldsOf self0 ext0).2.1 ∧
    iloc0 df0 = iloc0 (foldsOf self0 ext0).2.1 :=
  (fold_feature_target_split self0 ext0 trial0 0).1 (ilocMid df0) (iloc0 df0)
    (ilocMid df0) (iloc0 df0) (by decide)

/-- Claim C7: over a search space whose declarations are all well formed
(numeric-bound pairs or categorical lists), the sampler succeeds and
returns a mapping with exactly one entry per key, in declaration order
(the recursion makes a single pass and never re-samples). -/
theorem sampler_complete_mapping (model_params : List (String × Decl))
    (trial : Trial) (h : ∀ kd ∈ model_params, WFDecl kd.2 = true) :
    ∃ ps, get_trial_parameters model_params trial = .ok ps ∧
      ps.map Prod.fst = model_params.map Prod.fst := by
  induction model_params with
  | nil => exact ⟨[], rfl, rfl⟩
  | cons kd rest ih =>
    obtain ⟨ps, hps, hmap⟩ := ih (fun x hx => h x (List.mem_cons_of_mem _ hx))
    have hwf := h kd (List.mem_cons_self _ _)
    obtain ⟨k, d⟩ := kd
    match d, hwf with
    | .tuple v, hwf =>
      simp only [WFDecl, Bool.and_eq_true] at hwf
      obtain ⟨r, hr⟩ := process_tuple_wf trial k v hwf.1 hwf.2
      refine ⟨(k, r) :: ps, ?_, ?_⟩
      · simp only [get_trial_parameters, hr, hps]
      · simp [hmap]
    | .list cs, hwf =>
      refine ⟨(k, trial.suggest_categorical k cs) :: ps, ?_, ?_⟩
      · simp only [get_trial_parameters, hps]
      · simp [hmap]
    | .other, hwf => simp [WFDecl] at hwf

/-- Witness for C7: a three-key search space with a continuous pair, an
integer pair and a categorical list samples into a mapping with exactly
those keys. -/
theorem sampler_complete_mapping_witness :
    ∃ ps,
      get_trial_parameters
        [("eta", Decl.tuple ((PyVal.float (1 / 100), PyVal.float (1 / 5)), false)),
         ("max_depth", Decl.tuple ((PyVal.int 3, PyVal.int 10), false)),
         ("booster", Decl.list [PyVal.str "gbtree", PyVal.str "dart"])] trial0
        = .ok ps ∧
      ps.map Prod.fst = ["eta", "max_depth", "booster"] :=
  sampler_complete_mapping
    [("eta", Decl.tuple ((PyVal.float (1 / 100), PyVal.float (1 / 5)), false)),
     ("max_depth", Decl.tuple ((PyVal.int 3, PyVal.int 10), false)),
     ("booster", Decl.list [PyVal.str "gbtree", PyVal.str "dart"])] trial0
    (by decide)

/-- Counterexample for C9 as frozen: a zero-column validation fold has
columns that are not ordered `[load, ..., horizon]` while the train fold's
are, yet the trial does not proceed to fit: extracting `valid_y` at
objective.py line 138 raises `IndexError` and the trace ends at the
split — the call neither returns a result nor reaches a fit event. -/
theorem column_check_train_only_counterexample :
    (RegressorObjective.call self0 extEmptyValidation trial0 0).2
        = Except.error (PyError.indexError "single positional indexer is out-of-bounds") ∧
    (RegressorObjective.call self0 extEmptyValidation trial0 0).1 = [Event.splitCall] :=
  ⟨rfl, rfl⟩

/-- Claim C9 as amended: the column-order validation inspects only the
train fold — with a well-ordered train fold, validation and test folds
that have at least one column each, and successful sampling, the call
reaches the fit and returns without error even when the validation or test
fold's columns are out of order (a zero-column fold instead raises
`IndexError` at the target extraction, as the counterexample shows). -/
theorem column_check_train_only (self : RegressorObjective) (ext : Externals)
    (trial : Trial) (now : Int) (tr va te : DataFrame)
    (ps : List (String × PyVal))
    (hsplit : foldsOf self ext = (tr, va, te))
    (htr : columnsOk tr.columns = Except.ok ())
    (hva : va.columns ≠ []) (hte : te.columns ≠ [])
    (_hbad : columnsOk va.columns ≠ Except.ok () ∨ columnsOk te.columns ≠ Except.ok ())
    (hps : get_trial_parameters self.model_params trial = Except.ok ps) :
    (∃ r, (RegressorObjective.call self ext trial now).2 = Except.ok r) ∧
    ∃ tx ty vx vy,
      Event.fitCall tx ty vx vy ∈ (RegressorObjective.call self ext trial now).1 := by
  have htrn := iloc0Checked_nonempty tr (columnsOk_ok_nonempty tr.columns htr)
  have hvan := iloc0Checked_nonempty va hva
  have hten := iloc0Checked_nonempty te hte
  rcases hm : ext.metrics self.eval_metric with _ | f
  · refine ⟨⟨none, ?_⟩, ilocMid tr, iloc0 tr, ilocMid va, iloc0 va, ?_⟩
    · rw [call_snd]
      simp [callBody, hsplit, htr, htrn, hvan, hten, hps, hm]
    · rw [call_mem self ext trial now _ (by simp)]
      simp [callBody, hsplit, htr, htrn, hvan, hten, hps, hm]
  · refine ⟨⟨some (f (iloc0 te) (ext.predict (ilocMid te))), ?_⟩,
      ilocMid tr, iloc0 tr, ilocMid va, iloc0 va, ?_⟩
    · rw [call_snd]
      simp [callBody, hsplit, htr, htrn, hvan, hten, hps, hm]
    · rw [call_mem self ext trial now _ (by simp)]
      simp [callBody, hsplit, htr, htrn, hvan, hten, hps, hm]

/-- Witness for C9 (amended): a splitter returning a one-column,
badly-ordered validation fold next to a good train fold still reaches the
fit and returns a result. -/
theorem column_check_train_only_witness :
    (∃ r, (RegressorObjective.call self0 extBadValidation trial0 0).2 = Except.ok r) ∧
    ∃ tx ty vx vy,
      Event.fitCall tx ty vx vy ∈ (RegressorObjective.call self0 extBadValidation trial0 0).1 :=
  column_check_train_only self0 extBadValidation trial0 0 df0 dfBad df0 [] rfl rfl
    (by decide) (by decide) (Or.inl (by simp [dfBad, columnsOk])) rfl

/-- Counterexample for C8: with `features = None` the feature loop is
skipped entirely — with pass-through wind/humidity steps the output equals
the input, and neither the calendar feature `IsWeekDay` nor the generated
lag feature `T-1d` is folded into the output, contradicting the claim that
lag and calendar/holiday features are unconditionally folded in. -/
theorem apply_features_none_counterexample :
    (apply_features featExt0 df1 none 24).2 = df1 ∧
    "IsWeekDay" ∉ (apply_features featExt0 df1 none 24).2.columns ∧
    "T-1d" ∉ (apply_features featExt0 df1 none 24).2.columns := by
  refine ⟨rfl, by decide, by decide⟩

/-- Claim C8 as amended: when no allow-list is given the lag/calendar/
holiday loop is skipped and the frame passes only through the wind and
humidity steps; when an allow-list is provided only feature functions
whose names appear in the list are applied, so every column after the loop
is an input column or a name from the list. -/
theorem apply_features_allowlist (ext : FeatureExt) (data : DataFrame)
    (horizon : Rat) (fs : List String) :
    (apply_features ext data none horizon).2
        = ext.add_humidity_features (ext.add_additional_wind_features data none) none ∧
    (apply_features ext data (some fs) horizon).2
        = ext.add_humidity_features
            (ext.add_additional_wind_features
              (applyRequestedFeatures (featureFunctionsOf ext (some fs) horizon) fs data)
              (some fs)) (some fs) ∧
    ∀ c,
      c ∈ (applyRequestedFeatures (featureFunctionsOf ext (some fs) horizon) fs data).columns →
        c ∈ data.columns ∨ c ∈ fs :=
  ⟨rfl, rfl, fun _ hc => applyRequested_mem_inv _ _ _ _ hc⟩

/-- Witness for C8 (amended): after requesting only `Month`, the column
`Month` of the loop result is accounted for by the allow-list. -/
theorem apply_features_allowlist_witness :
    "Month" ∈ df1.columns ∨ "Month" ∈ ["Month"] :=
  (apply_features_allowlist featExt0 df1 24 ["Month"]).2.2 "Month" (by decide)

/-- Claim C10 (implicit): `apply_features` mutates its argument — any
requested feature-function name that is not yet a column is assigned onto
the caller's frame, so the state of the input object after the call has
gained that column and differs from the input. -/
theorem apply_features_mutates_input (ext : FeatureExt) (data : DataFrame)
    (horizon : Rat) (fs : List String) (key : String)
    (hk : key ∈ (featureFunctionsOf ext (some fs) horizon).map Prod.fst)
    (hf : key ∈ fs) (hnew : key ∉ data.columns) :
    key ∈ (apply_features ext data (some fs) horizon).1.columns ∧
    (apply_features ext data (some fs) horizon).1 ≠ data := by
  have h1 : key ∈ (applyRequestedFeatures (featureFunctionsOf ext (some fs) horizon) fs data).columns :=
    applyRequested_mem_of_requested _ _ _ _ hk hf
  refine ⟨h1, fun he => hnew ?_⟩
  rw [← he]
  exact h1

/-- Witness for C10: requesting `Month` on a frame without that column
leaves the caller's frame with a new `Month` column. -/
theorem apply_features_mutates_input_witness :
    "Month" ∈ (apply_features featExt0 df1 (some ["Month"]) 24).1.columns ∧
    (apply_features featExt0 df1 (some ["Month"]) 24).1 ≠ df1 :=
  apply_features_mutates_input featExt0 df1 24 ["Month"] "Month" (by decide)
    (by decide) (by decide)

end Openstf
